import Mathlib

/-!
Verification of the real-time telemetry broadcast hub of `dashboard.py`
(repository skyguy126/rnracing).

The hub keeps a module-level list `sse_clients` of per-subscriber bounded
queues guarded by `sse_lock`.  `broadcast_data` serializes an event once and,
under the lock, appends the frame to every client queue, evicting any client
whose `put_nowait` raises.  `receive_data` is the `POST /data` handler, and
`event_stream` is the per-subscriber generator that first yields a synthetic
"connected" frame and then drains its queue with a 30-second timeout, yielding
a keep-alive comment on timeout, and unsubscribing in a `finally` block.

Everything below is a shallow embedding of that code.  Python's GIL plus the
single `sse_lock` make subscribe, unsubscribe and the whole scan-and-evict
pass of one publish atomic with respect to each other, so concurrent
executions are modelled as interleavings of these atomic operations on the
hub state.
-/

namespace RNRacing

/-- JSON values as produced by `request.get_json()` / consumed by
`json.dumps`.  Numbers are modelled as integers (the claims only involve
integer payloads; float formatting is orthogonal to every claim). -/
inductive JsonValue where
  | null : JsonValue
  | bool : Bool → JsonValue
  | num : Int → JsonValue
  | str : String → JsonValue
  | arr : List JsonValue → JsonValue
  | obj : List (String × JsonValue) → JsonValue

/-- Lower-case hexadecimal digit, as used by `json.dumps` for control
characters. -/
def hexDigit (n : Nat) : Char :=
  if n < 10 then Char.ofNat (48 + n) else Char.ofNat (87 + n)

/-- Escaping of a single character inside a JSON string, following
`json.dumps` (default `ensure_ascii` is irrelevant for the ASCII payloads of
the claims). -/
def escChar (c : Char) : String :=
  if c = '"' then "\\\""
  else if c = '\\' then "\\\\"
  else if c = '\n' then "\\n"
  else if c = '\t' then "\\t"
  else if c = '\r' then "\\r"
  else if c.toNat = 8 then "\\b"
  else if c.toNat = 12 then "\\f"
  else if c.toNat < 32 then
    "\\u00" ++ String.mk [hexDigit (c.toNat / 16), hexDigit (c.toNat % 16)]
  else String.singleton c

/-- Escaping of a JSON string body, following `json.dumps`. -/
def escString (s : String) : String :=
  String.join (s.toList.map escChar)

mutual

/-- `json.dumps` with its default separators (", " between items,
": " after keys), preserving object insertion order as Python dicts do. -/
def serializeJson : JsonValue → String
  | .null => "null"
  | .bool true => "true"
  | .bool false => "false"
  | .num n => toString n
  | .str s => "\"" ++ escString s ++ "\""
  | .arr xs => "[" ++ serializeItems xs ++ "]"
  | .obj fs => "\x7b" ++ serializeFields fs ++ "\x7d"

/-- Comma-separated serialization of a JSON array body. -/
def serializeItems : List JsonValue → String
  | [] => ""
  | [x] => serializeJson x
  | x :: y :: rest => serializeJson x ++ ", " ++ serializeItems (y :: rest)

/-- Comma-separated serialization of a JSON object body. -/
def serializeFields : List (String × JsonValue) → String
  | [] => ""
  | [(k, v)] => "\"" ++ escString k ++ "\": " ++ serializeJson v
  | (k, v) :: f :: rest =>
      "\"" ++ escString k ++ "\": " ++ serializeJson v ++ ", " ++
        serializeFields (f :: rest)

end

/-- The SSE frame built by `broadcast_data`:
`message = f"data: \x7bdata_json\x7d\n\n"` with `data_json = json.dumps(data)`. -/
def sseFrame (data : JsonValue) : String :=
  "data: " ++ serializeJson data ++ "\n\n"

/-- `queue.Queue(maxsize=100)`: the capacity of every subscriber queue. -/
def maxsize : Nat := 100

/-- The hub state.  `registry` is `sse_clients` (the ids of the registered
client queues, in list order); `buffers` gives each client queue's pending
frames (front = oldest); `broken id = true` models a queue whose `put_nowait`
raises an exception other than `queue.Full`; `nextId` is the supply of fresh
queue identities (distinct Python objects). -/
structure HubState where
  registry : List Nat
  buffers : Nat → List String
  broken : Nat → Bool
  nextId : Nat

/-- The hub state at process start: empty `sse_clients`. -/
def initialHub : HubState :=
  { registry := [], buffers := fun _ => [], broken := fun _ => false,
    nextId := 0 }

/-- Whether `client_queue.put_nowait(message)` succeeds for client `id`:
it fails by raising `queue.Full` when the queue already holds `maxsize`
frames, or by raising some other exception when the queue is broken. -/
def put_ok (st : HubState) (id : Nat) : Bool :=
  !(st.broken id) && decide ((st.buffers id).length < maxsize)

/-- `broadcast_data(data)`: serializes the event once, then under `sse_lock`
appends the frame to every registered queue, collecting the indices whose
`put_nowait` raised and popping them (in reverse) from `sse_clients`.
Net effect on the list: clients whose put failed are removed, the others keep
their place, in order; the frame is appended exactly to the surviving
clients' queues.  (Registered ids are pairwise distinct — each is a distinct
Python queue object — so the per-id functional update is exact.) -/
def broadcast_data (st : HubState) (data : JsonValue) : HubState :=
  let message := sseFrame data
  { st with
    registry := st.registry.filter (fun id => put_ok st id),
    buffers := fun id =>
      if st.registry.contains id && put_ok st id then
        st.buffers id ++ [message]
      else st.buffers id }

/-- The outcome of `request.get_json()` on the request body: `parsed v` when
a JSON value was decoded (`data = None` — i.e. `JsonValue.null` — for a JSON
`null` body, and in Flask < 2.1 also for a missing or non-JSON body), or
`malformed` when `get_json` raises.  Flask wraps any decode failure in
`werkzeug.exceptions.BadRequest` (`UnsupportedMediaType` for a non-JSON
content type in Flask ≥ 2.1); it never lets `json.JSONDecodeError` escape. -/
inductive RequestBody where
  | parsed : JsonValue → RequestBody
  | malformed : RequestBody

/-- An HTTP response: status code and JSON body. -/
structure HttpResponse where
  status : Nat
  body : JsonValue

/-- The 200 body of `receive_data`. -/
def successBody : JsonValue :=
  .obj [("status", .str "success"), ("message", .str "Data received")]

/-- `receive_data` (`POST /data`): a body on which `get_json` raises is
answered by the handler's generic `except Exception` branch with 500
"Internal server error" — the `except json.JSONDecodeError` branch that
would answer 400 "Invalid JSON format" is dead code, since `get_json`
raises `BadRequest`/`UnsupportedMediaType` and never `json.JSONDecodeError`;
a body parsing to `None` is answered 400 "No JSON data provided"; any other
parsed value — object or not — is broadcast and answered 200. -/
def receive_data (st : HubState) (body : RequestBody) :
    HttpResponse × HubState :=
  match body with
  | .malformed =>
      (⟨500, .obj [("error", .str "Internal server error")]⟩, st)
  | .parsed .null =>
      (⟨400, .obj [("error", .str "No JSON data provided")]⟩, st)
  | .parsed v =>
      (⟨200, successBody⟩, broadcast_data st v)

/-- The subscribe step of `event_stream`: create a fresh empty queue with
capacity 100 and append it to `sse_clients` under the lock.  Returns the new
client's id and the new state. -/
def subscribe (st : HubState) : Nat × HubState :=
  (st.nextId,
   { st with
     registry := st.registry ++ [st.nextId],
     buffers := fun id => if id = st.nextId then [] else st.buffers id,
     nextId := st.nextId + 1 })

/-- The `finally` block of `event_stream`: under the lock,
`if client_queue in sse_clients: sse_clients.remove(client_queue)` —
remove the first occurrence if present, do nothing otherwise. -/
def unsubscribe (st : HubState) (id : Nat) : HubState :=
  if st.registry.contains id then
    { st with registry := st.registry.erase id }
  else st

/-- The atomic operations on the hub.  Each holds `sse_lock` for its whole
registry access (the scan-and-evict of a publish, the append of a subscribe,
the conditional remove of an unsubscribe), so a concurrent execution is an
interleaving of these steps. -/
inductive HubOp where
  | post : RequestBody → HubOp
  | connect : HubOp
  | disconnect : Nat → HubOp

/-- Effect of one atomic hub operation on the state. -/
def applyOp (st : HubState) : HubOp → HubState
  | .post b => (receive_data st b).2
  | .connect => (subscribe st).2
  | .disconnect id => unsubscribe st id

/-- Run a sequence of interleaved atomic hub operations. -/
def runOps (st : HubState) (ops : List HubOp) : HubState :=
  ops.foldl applyOp st

/-- `POST /data` with each event in order (each with a successfully parsed
body); returns the list of responses and the final hub state. -/
def postEvents (st : HubState) (events : List JsonValue) :
    List HttpResponse × HubState :=
  match events with
  | [] => ([], st)
  | e :: rest =>
      let r := receive_data st (.parsed e)
      let rs := postEvents r.2 rest
      (r.1 :: rs.1, rs.2)

/-- The synthetic first frame of `event_stream`:
`f"data: \x7bjson.dumps(...)\x7d\n\n"` for the connected message. -/
def connectedFrame : String :=
  sseFrame (.obj [("type", .str "connected"),
                  ("message", .str "SSE connection established")])

/-- The keep-alive comment frame yielded on `queue.Empty`. -/
def keepAliveFrame : String := ": keep-alive\n\n"

/-- `client_queue.get(timeout=30)`: the timeout, in the spec's time units. -/
def timeoutInterval : Nat := 30

/-- One `client_queue.get(timeout=timeoutInterval)` call at time `t`, with
`buf` the frames already buffered and `arr` the messages still to arrive
(arrival time, frame), in order.  If a frame is buffered it is returned at
once; otherwise the call blocks until the first arrival, or raises
`queue.Empty` (`none`) once the timeout elapses.  Returns the result, the
time the call returns, and the remaining buffer and arrivals. -/
def queueGet (t : Nat) (buf : List String) (arr : List (Nat × String)) :
    Option String × Nat × List String × List (Nat × String) :=
  match buf with
  | m :: rest => (some m, t, rest, arr)
  | [] =>
      match arr with
      | (ta, m) :: rest =>
          if ta ≤ t + timeoutInterval then (some m, max t ta, [], rest)
          else (none, t + timeoutInterval, [], (ta, m) :: rest)
      | [] => (none, t + timeoutInterval, [], [])

/-- The steady-state loop of `event_stream`: wait for the next buffered
frame with the 30-unit timeout, yield it, or yield the keep-alive comment on
timeout, and repeat.  `fuel` is the number of iterations until the viewer's
transport disconnect ends the generator; the result is the timed sequence of
yielded frames. -/
def sendLoop : Nat → Nat → List String → List (Nat × String) →
    List (Nat × String)
  | 0, _, _, _ => []
  | fuel + 1, t, buf, arr =>
      match queueGet t buf arr with
      | (some m, t', buf', arr') => (t', m) :: sendLoop fuel t' buf' arr'
      | (none, t', buf', arr') =>
          (t', keepAliveFrame) :: sendLoop fuel t' buf' arr'

/-- The full sequence of frames yielded by one `event_stream` generator: the
synthetic connected frame first, then the send loop's frames. -/
def event_stream_frames (fuel t : Nat) (buf : List String)
    (arr : List (Nat × String)) : List String :=
  connectedFrame :: (sendLoop fuel t buf arr).map Prod.snd

/-- How an `event_stream` generator ends: the loop runs off normally (process
shutdown closing the response), an exception escapes the `try`, or
`GeneratorExit` is thrown on viewer disconnect. -/
inductive ExitReason where
  | completed : ExitReason
  | error : ExitReason
  | disconnect : ExitReason

/-- One full `event_stream` lifetime as it affects the hub state: subscribe
on entry; the hub then serves an arbitrary interleaving `during` of atomic
operations by other tasks while the generator yields frames; finally the
generator exits for reason `exit`, and on every exit path the `finally`
block runs `unsubscribe` once. -/
def event_stream_run (st0 : HubState) (during : List HubOp)
    (exit : ExitReason) : HubState :=
  let s := subscribe st0
  let st2 := runOps s.2 during
  match exit with
  | .completed => unsubscribe st2 s.1
  | .error => unsubscribe st2 s.1
  | .disconnect => unsubscribe st2 s.1

/-- `true` exactly on JSON objects (Python mappings). -/
def isObj : JsonValue → Bool
  | .obj _ => true
  | _ => false

/-- A hub state with one registered, healthy subscription whose buffer is
empty. -/
def oneClientHub : HubState :=
  { registry := [0], buffers := fun _ => [], broken := fun _ => false,
    nextId := 1 }

/-- Two registered, healthy subscriptions with empty buffers. -/
def twoClientHub : HubState :=
  { registry := [0, 1], buffers := fun _ => [], broken := fun _ => false,
    nextId := 2 }

/-- Two registered subscriptions; client 0's queue raises on `put_nowait`,
client 1 is healthy. -/
def brokenClientHub : HubState :=
  { registry := [0, 1], buffers := fun _ => [], broken := fun id => id == 0,
    nextId := 2 }

/-- One registered subscription whose buffer already holds 100 frames. -/
def fullClientHub : HubState :=
  { registry := [0], buffers := fun _ => List.replicate 100 "f",
    broken := fun _ => false, nextId := 1 }

/-!  Theorems  -/

/-- C3 counterexample: the claim says every `POST /data` body that is not a
JSON object is rejected with 400 and publishes nothing, but `receive_data`
only checks `data is None`: a body parsing to the non-object JSON value `[]`
is answered 200 and is broadcast to the registered subscription. -/
theorem receive_data_accepts_nonobject :
    (receive_data oneClientHub (.parsed (.arr []))).1.status = 200
    ∧ (receive_data oneClientHub (.parsed (.arr []))).2.buffers 0
        = ["data: []\n\n"] :=
  ⟨rfl, by decide⟩

/-- C3 (amended): a `POST /data` body on which `get_json` raises (an
unparsable body) is answered status 500 with body error "Internal server
error" — not the claimed 400 "Invalid JSON format", whose handler branch is
dead code — and a body whose parse yields Python `None` (a JSON `null`
body; in older Flask also a missing or non-JSON body) is rejected with
status 400 and body error "No JSON data provided"; in both cases no publish
happens (the hub state is returned unchanged).  Bodies parsing to any other
JSON value, object or not, are not rejected. -/
theorem receive_data_error_paths (st : HubState) :
    receive_data st .malformed
      = (⟨500, .obj [("error", .str "Internal server error")]⟩, st)
    ∧ receive_data st (.parsed .null)
      = (⟨400, .obj [("error", .str "No JSON data provided")]⟩, st) :=
  ⟨rfl, rfl⟩

/-- C7: whatever the buffered frames, pending arrivals, start time and
lifetime of the generator, the first frame `event_stream` yields is the one
synthetic connected frame — before any telemetry or keep-alive frame — and
that frame is exactly the claimed byte string. -/
theorem event_stream_first_frame (fuel t : Nat) (buf : List String)
    (arr : List (Nat × String)) :
    (event_stream_frames fuel t buf arr).head? = some connectedFrame
    ∧ connectedFrame
        = "data: \x7b\"type\": \"connected\", \"message\": \"SSE connection established\"\x7d\n\n" :=
  ⟨rfl, rfl⟩

/-- C9: every exit path of `event_stream` — normal completion, error, or
disconnect — leads to the same final hub state, namely the one obtained by
running the `finally` block's `unsubscribe` exactly once after the
generator's lifetime; in that final state the subscription's registry
multiplicity has decreased by exactly the effect of one removal (one when it
was present, zero when a concurrent removal already took it out — never
two). -/
theorem event_stream_cleanup (st0 : HubState) (during : List HubOp)
    (exit exit' : ExitReason) :
    event_stream_run st0 during exit = event_stream_run st0 during exit'
    ∧ event_stream_run st0 during exit
        = unsubscribe (runOps (subscribe st0).2 during) (subscribe st0).1
    ∧ (event_stream_run st0 during exit).registry.count (subscribe st0).1
        = (runOps (subscribe st0).2 during).registry.count (subscribe st0).1
            - 1 := by
  refine ⟨?_, ?_, ?_⟩
  · cases exit <;> cases exit' <;> rfl
  · cases exit <;> rfl
  · cases exit <;>
      · show (unsubscribe (runOps (subscribe st0).2 during)
            (subscribe st0).1).registry.count (subscribe st0).1 = _
        unfold unsubscribe
        split
        · next hc =>
            simp [List.count_erase_self]
        · next hc =>
            have : (subscribe st0).1 ∉
                (runOps (subscribe st0).2 during).registry := by
              simpa using hc
            simp [List.count_eq_zero.mpr this]

/-- C2: every subscriber queue is created with capacity `maxsize = 100`; a
publish never pushes a buffer past that capacity, and a subscription whose
buffer already holds 100 unconsumed frames when a publish occurs is not
blocked on — it is removed from the registry within that same
`broadcast_data` call (its buffer left as is). -/
theorem broadcast_capacity (st : HubState) (d : JsonValue) (id : Nat) :
    maxsize = 100
    ∧ ((st.buffers id).length ≤ maxsize →
        ((broadcast_data st d).buffers id).length ≤ maxsize)
    ∧ (id ∈ st.registry → maxsize ≤ (st.buffers id).length →
        id ∉ (broadcast_data st d).registry
        ∧ (broadcast_data st d).buffers id = st.buffers id) := by
  refine ⟨rfl, ?_, ?_⟩
  · intro hle
    by_cases hc : (st.registry.contains id && put_ok st id) = true
    · have hok : put_ok st id = true := by
        cases hpo : put_ok st id
        · simp [hpo] at hc
        · rfl
      have hlt : (st.buffers id).length < maxsize := by
        have h' := hok
        simp only [put_ok, Bool.and_eq_true, decide_eq_true_eq] at h'
        exact h'.2
      simp only [broadcast_data, hc, if_true]
      simp only [List.length_append, List.length_singleton]
      omega
    · simp only [broadcast_data, hc, if_false]
      exact hle
  · intro hmem hfull
    have hok : put_ok st id = false := by
      have : ¬ (st.buffers id).length < maxsize := by omega
      simp [put_ok, this]
    constructor
    · simp [broadcast_data, List.mem_filter, hok]
    · simp [broadcast_data, hok]

/-- C2 witness: a subscription whose buffer holds 100 frames is evicted by
the next publish and its buffer is untouched. -/
theorem broadcast_capacity_witness :
    (0 ∈ fullClientHub.registry
      ∧ maxsize ≤ (fullClientHub.buffers 0).length)
    ∧ (0 ∉ (broadcast_data fullClientHub (.obj [])).registry
      ∧ (broadcast_data fullClientHub (.obj [])).buffers 0
          = fullClientHub.buffers 0) :=
  ⟨⟨by decide, by decide⟩,
   (broadcast_capacity fullClientHub (.obj []) 0).2.2 (by decide) (by decide)⟩

/-- C5: removal from the registry is idempotent: unsubscribing an absent
subscription is a no-op that returns the state unchanged (and raises no
error — the operation is total), and unsubscribing the same subscription
twice shrinks the registry by at most one entry in total. -/
theorem unsubscribe_idempotent (st : HubState) (id : Nat)
    (h : st.registry.count id ≤ 1) :
    (id ∉ st.registry → unsubscribe st id = st)
    ∧ st.registry.length
        ≤ (unsubscribe (unsubscribe st id) id).registry.length + 1 := by
  constructor
  · intro hmem
    unfold unsubscribe
    simp [hmem]
  · by_cases hmem : id ∈ st.registry
    · have h1 : unsubscribe st id
          = { st with registry := st.registry.erase id } := by
        unfold unsubscribe; simp [hmem]
      have hcount : (st.registry.erase id).count id = 0 := by
        have hpos : 0 < st.registry.count id := by
          simpa using List.count_pos_iff.mpr hmem
        have := List.count_erase_self id st.registry
        omega
      have hnot : id ∉ st.registry.erase id := List.count_eq_zero.mp hcount
      have h2 : unsubscribe (unsubscribe st id) id = unsubscribe st id := by
        rw [h1]; unfold unsubscribe; simp [hnot]
      rw [h2, h1]
      have := List.length_erase_of_mem hmem
      have := List.length_pos_of_mem hmem
      simp only []
      omega
    · have h1 : unsubscribe st id = st := by
        unfold unsubscribe; simp [hmem]
      rw [h1, h1]
      omega

/-- C5 witness: double unsubscribe on a concrete one-client hub shrinks the
registry by exactly one. -/
theorem unsubscribe_idempotent_witness :
    oneClientHub.registry.count 0 ≤ 1
    ∧ ((0 ∉ oneClientHub.registry → unsubscribe oneClientHub 0 = oneClientHub)
      ∧ oneClientHub.registry.length
          ≤ (unsubscribe (unsubscribe oneClientHub 0) 0).registry.length
              + 1) :=
  ⟨by decide, unsubscribe_idempotent oneClientHub 0 (by decide)⟩

/-- C4: no failure escapes a publish: when some registered subscription's
`put_nowait` fails (queue full, or the append raising any other error —
`put_ok = false` covers both), `receive_data` still answers the producer
200/success, the failing subscription is silently evicted from the registry
within that publish, and every other registered subscription whose append
succeeds receives the frame in that same publish. -/
theorem broadcast_isolates_failures (st : HubState)
    (fs : List (String × JsonValue)) (idb idg : Nat)
    (hb : idb ∈ st.registry) (hfail : put_ok st idb = false)
    (hg : idg ∈ st.registry) (hok : put_ok st idg = true) :
    (receive_data st (.parsed (.obj fs))).1 = ⟨200, successBody⟩
    ∧ idb ∉ (receive_data st (.parsed (.obj fs))).2.registry
    ∧ (receive_data st (.parsed (.obj fs))).2.buffers idg
        = st.buffers idg ++ [sseFrame (.obj fs)] := by
  refine ⟨rfl, ?_, ?_⟩
  · simp [receive_data, broadcast_data, List.mem_filter, hfail]
  · simp [receive_data, broadcast_data, List.elem_eq_true_of_mem hg, hg, hok]

/-- C4 witness: with client 0 broken and client 1 healthy, a publish
answers 200, evicts client 0, and delivers the frame to client 1. -/
theorem broadcast_isolates_failures_witness :
    (0 ∈ brokenClientHub.registry ∧ put_ok brokenClientHub 0 = false
      ∧ 1 ∈ brokenClientHub.registry ∧ put_ok brokenClientHub 1 = true)
    ∧ ((receive_data brokenClientHub
          (.parsed (.obj [("speed", .num 42)]))).1 = ⟨200, successBody⟩
      ∧ 0 ∉ (receive_data brokenClientHub
              (.parsed (.obj [("speed", .num 42)]))).2.registry
      ∧ (receive_data brokenClientHub
              (.parsed (.obj [("speed", .num 42)]))).2.buffers 1
          = brokenClientHub.buffers 1
              ++ [sseFrame (.obj [("speed", .num 42)])]) :=
  ⟨⟨by decide, by decide, by decide, by decide⟩,
   broadcast_isolates_failures brokenClientHub [("speed", .num 42)] 0 1
     (by decide) (by decide) (by decide) (by decide)⟩

/-- C6: the scan-and-evict pass of one publish is a single atomic step of
the interleaving semantics (it runs under the same `sse_lock` as subscribe
and unsubscribe), so each publish is all-or-nothing per subscription: a
subscription registered at that step either receives exactly one copy of the
frame and keeps its place, or is evicted with its buffer untouched; a
subscription not registered at that step is untouched; and a duplicate-free
registry stays duplicate-free (no lost updates, no double delivery, no
half-mutated iteration). -/
theorem publish_atomic_scan (st : HubState) (d : JsonValue)
    (h : st.registry.Nodup) :
    (broadcast_data st d).registry.Nodup
    ∧ ∀ id,
        (id ∈ st.registry → put_ok st id = true →
          id ∈ (broadcast_data st d).registry
          ∧ (broadcast_data st d).buffers id
              = st.buffers id ++ [sseFrame d])
        ∧ (id ∈ st.registry → put_ok st id = false →
          id ∉ (broadcast_data st d).registry
          ∧ (broadcast_data st d).buffers id = st.buffers id)
        ∧ (id ∉ st.registry →
          id ∉ (broadcast_data st d).registry
          ∧ (broadcast_data st d).buffers id = st.buffers id) := by
  refine ⟨h.filter _, fun id => ⟨fun hmem hok => ⟨?_, ?_⟩,
    fun hmem hfail => ⟨?_, ?_⟩, fun hmem => ⟨?_, ?_⟩⟩⟩
  · simp [broadcast_data, List.mem_filter, hmem, hok]
  · simp [broadcast_data, List.elem_eq_true_of_mem hmem, hmem, hok]
  · simp [broadcast_data, List.mem_filter, hfail]
  · simp [broadcast_data, hfail]
  · simp [broadcast_data, List.mem_filter, hmem]
  · have hc : st.registry.contains id = false := by
      simpa using hmem
    simp [broadcast_data, hc]
    exact fun hmem' => absurd hmem' hmem

/-- C6 witness: on a concrete duplicate-free two-client hub, a publish
delivers exactly one copy of the frame to registered client 0. -/
theorem publish_atomic_scan_witness :
    (twoClientHub.registry.Nodup ∧ 0 ∈ twoClientHub.registry
      ∧ put_ok twoClientHub 0 = true)
    ∧ (0 ∈ (broadcast_data twoClientHub (.obj [])).registry
      ∧ (broadcast_data twoClientHub (.obj [])).buffers 0
          = twoClientHub.buffers 0 ++ [sseFrame (.obj [])]) :=
  ⟨⟨by decide, by decide, by decide⟩,
   ((publish_atomic_scan twoClientHub (.obj []) (by decide)).2 0).1
     (by decide) (by decide)⟩

/-- Helper: every frame the send loop yields is either the keep-alive
comment or one of the frames buffered or arriving on the subscription's own
queue — the loop never invents a telemetry frame. -/
theorem sendLoop_frames_sources (fuel : Nat) :
    ∀ (t : Nat) (buf : List String) (arr : List (Nat × String)),
    ∀ p ∈ sendLoop fuel t buf arr,
      p.2 = keepAliveFrame ∨ p.2 ∈ buf ∨ ∃ ta, (ta, p.2) ∈ arr := by
  induction fuel with
  | zero =>
    intro t buf arr p hp
    simp [sendLoop] at hp
  | succ n ih =>
    intro t buf arr p hp
    cases buf with
    | cons m rest =>
      rw [show sendLoop (n + 1) t (m :: rest) arr
            = (t, m) :: sendLoop n t rest arr from rfl] at hp
      rcases List.mem_cons.mp hp with h | h
      · right; left; simp [h]
      · rcases ih t rest arr p h with hka | hmem | ⟨ta, hta⟩
        · left; exact hka
        · right; left; exact List.mem_cons_of_mem _ hmem
        · right; right; exact ⟨ta, hta⟩
    | nil =>
      cases arr with
      | nil =>
        rw [show sendLoop (n + 1) t [] []
              = (t + timeoutInterval, keepAliveFrame)
                  :: sendLoop n (t + timeoutInterval) [] [] from rfl] at hp
        rcases List.mem_cons.mp hp with h | h
        · left; simp [h]
        · rcases ih _ [] [] p h with hka | hmem | ⟨ta, hta⟩
          · left; exact hka
          · simp at hmem
          · simp at hta
      | cons a rest =>
        obtain ⟨ta, m⟩ := a
        by_cases hle : ta ≤ t + timeoutInterval
        · rw [show sendLoop (n + 1) t [] ((ta, m) :: rest)
                = (max t ta, m) :: sendLoop n (max t ta) [] rest from by
              simp [sendLoop, queueGet, hle]] at hp
          rcases List.mem_cons.mp hp with h | h
          · right; right; exact ⟨ta, by simp [h]⟩
          · rcases ih _ [] rest p h with hka | hmem | ⟨tb, htb⟩
            · left; exact hka
            · simp at hmem
            · right; right; exact ⟨tb, List.mem_cons_of_mem _ htb⟩
        · rw [show sendLoop (n + 1) t [] ((ta, m) :: rest)
                = (t + timeoutInterval, keepAliveFrame)
                    :: sendLoop n (t + timeoutInterval) [] ((ta, m) :: rest)
                from by simp [sendLoop, queueGet, hle]] at hp
          rcases List.mem_cons.mp hp with h | h
          · left; simp [h]
          · exact ih _ [] _ p h

/-- C8: a subscription whose buffer is empty and stays empty for the whole
30-unit wait (every arrival is later than `t + 30`) has its send loop yield
the keep-alive comment at `t + 30` instead of a telemetry frame and then
resume waiting; and no telemetry frame is ever invented — every non-keep-
alive frame the loop yields is one that arrived on the subscription's own
queue. -/
theorem sendLoop_idle_keepalive (fuel t : Nat)
    (arr : List (Nat × String))
    (hlate : ∀ p ∈ arr, t + timeoutInterval < p.1) :
    sendLoop (fuel + 1) t [] arr
      = (t + timeoutInterval, keepAliveFrame)
          :: sendLoop fuel (t + timeoutInterval) [] arr
    ∧ ∀ p ∈ sendLoop (fuel + 1) t [] arr,
        p.2 = keepAliveFrame ∨ ∃ ta, (ta, p.2) ∈ arr := by
  constructor
  · cases arr with
    | nil => rfl
    | cons a rest =>
      obtain ⟨ta, m⟩ := a
      have hgt : ¬ ta ≤ t + timeoutInterval := by
        have := hlate (ta, m) (List.mem_cons_self _ _)
        omega
      simp [sendLoop, queueGet, hgt]
  · intro p hp
    rcases sendLoop_frames_sources (fuel + 1) t [] arr p hp
      with hka | hmem | ⟨ta, hta⟩
    · left; exact hka
    · simp at hmem
    · right; exact ⟨ta, hta⟩

/-- C8 witness: with one arrival at time 31 and the wait starting at 0, the
loop yields the keep-alive comment at time 30 first. -/
theorem sendLoop_idle_keepalive_witness :
    (∀ p ∈ [((31 : Nat), "data: 1\n\n")], 0 + timeoutInterval < p.1)
    ∧ (sendLoop (1 + 1) 0 [] [((31 : Nat), "data: 1\n\n")]
        = (0 + timeoutInterval, keepAliveFrame)
            :: sendLoop 1 (0 + timeoutInterval) [] [((31 : Nat), "data: 1\n\n")]
      ∧ ∀ p ∈ sendLoop (1 + 1) 0 [] [((31 : Nat), "data: 1\n\n")],
          p.2 = keepAliveFrame
          ∨ ∃ ta, (ta, p.2) ∈ [((31 : Nat), "data: 1\n\n")]) :=
  ⟨by decide,
   sendLoop_idle_keepalive 1 0 [((31 : Nat), "data: 1\n\n")] (by decide)⟩

/-- Helper: a send loop with nothing buffered and nothing arriving yields
only keep-alive comments, one per remaining iteration. -/
theorem sendLoop_no_arrivals (fuel : Nat) :
    ∀ t, (sendLoop fuel t [] []).map Prod.snd
      = List.replicate fuel keepAliveFrame := by
  induction fuel with
  | zero => intro t; rfl
  | succ n ih =>
    intro t
    rw [show sendLoop (n + 1) t [] []
          = (t + timeoutInterval, keepAliveFrame)
              :: sendLoop n (t + timeoutInterval) [] [] from rfl]
    simp [ih, List.replicate_succ]

/-- Helper: the send loop first drains every already-buffered frame, in
order, then yields keep-alives until its transport ends it. -/
theorem sendLoop_drains_buffer (buf : List String) :
    ∀ fuel t, (sendLoop (buf.length + fuel) t buf []).map Prod.snd
      = buf ++ List.replicate fuel keepAliveFrame := by
  induction buf with
  | nil =>
    intro fuel t
    simpa using sendLoop_no_arrivals fuel t
  | cons m rest ih =>
    intro fuel t
    have hlen : (m :: rest).length + fuel = (rest.length + fuel) + 1 := by
      simp [List.length_cons]; omega
    rw [hlen]
    rw [show sendLoop ((rest.length + fuel) + 1) t (m :: rest) []
          = (t, m) :: sendLoop (rest.length + fuel) t rest [] from rfl]
    simp [ih fuel t]

/-- C10: evicting a subscription during a publish changes only its registry
membership: the evicted subscription's buffer is left exactly as it was, its
send loop is not terminated, and — receiving no further publishes — the loop
still yields all of its already-buffered frames in order, followed by
keep-alive comments, until its own transport disconnect (the fuel running
out) ends it. -/
theorem eviction_frame_effect (st : HubState) (d : JsonValue) (id : Nat)
    (hmem : id ∈ st.registry) (hfail : put_ok st id = false)
    (fuel t : Nat) :
    (broadcast_data st d).buffers id = st.buffers id
    ∧ id ∉ (broadcast_data st d).registry
    ∧ (broadcast_data st d).broken = st.broken
    ∧ (sendLoop ((st.buffers id).length + fuel) t (st.buffers id) []).map
          Prod.snd
        = st.buffers id ++ List.replicate fuel keepAliveFrame := by
  refine ⟨?_, ?_, rfl, sendLoop_drains_buffer _ _ _⟩
  · simp [broadcast_data, hfail]
  · simp [broadcast_data, List.mem_filter, hfail]

/-- C10 witness: a concrete evicted client (broken queue, empty buffer)
keeps its buffer untouched, and its loop — with nothing buffered and one
iteration of fuel — yields exactly one keep-alive. -/
theorem eviction_frame_effect_witness :
    (0 ∈ brokenClientHub.registry ∧ put_ok brokenClientHub 0 = false)
    ∧ ((broadcast_data brokenClientHub (.obj [])).buffers 0
          = brokenClientHub.buffers 0
      ∧ 0 ∉ (broadcast_data brokenClientHub (.obj [])).registry
      ∧ (broadcast_data brokenClientHub (.obj [])).broken
          = brokenClientHub.broken
      ∧ (sendLoop ((brokenClientHub.buffers 0).length + 1) 0
            (brokenClientHub.buffers 0) []).map Prod.snd
          = brokenClientHub.buffers 0
              ++ List.replicate 1 keepAliveFrame) :=
  ⟨⟨by decide, by decide⟩,
   eviction_frame_effect brokenClientHub (.obj []) 0 (by decide) (by decide)
     1 0⟩

/-- C1: while the registered subscriptions are healthy and none reaches its
buffer capacity during the run, every `POST /data` carrying a JSON object is
answered 200 with the success body, and each request triggers exactly one
broadcast appending exactly one frame `data: <json.dumps(event)>\n\n` to
every registered subscription's buffer, in publish order; the registry is
unchanged throughout. -/
theorem postEvents_delivery (events : List JsonValue) (st : HubState)
    (hobj : ∀ e ∈ events, isObj e = true)
    (hunb : ∀ id ∈ st.registry, st.broken id = false)
    (hcap : ∀ id ∈ st.registry,
      (st.buffers id).length + events.length ≤ maxsize) :
    (postEvents st events).1
        = List.replicate events.length ⟨200, successBody⟩
    ∧ (postEvents st events).2.registry = st.registry
    ∧ ∀ id ∈ st.registry,
        (postEvents st events).2.buffers id
          = st.buffers id ++ events.map sseFrame := by
  induction events generalizing st with
  | nil =>
    exact ⟨rfl, rfl, fun id _ => (List.append_nil _).symm⟩
  | cons e rest ih =>
    have hobj_e : isObj e = true := hobj e (List.mem_cons_self _ _)
    have hok : ∀ id ∈ st.registry, put_ok st id = true := by
      intro id hid
      have h1 := hunb id hid
      have h2 := hcap id hid
      simp only [List.length_cons] at h2
      simp [put_ok, h1]
      omega
    have hstep : receive_data st (.parsed e)
        = (⟨200, successBody⟩, broadcast_data st e) := by
      cases e <;> first | rfl | simp [isObj] at hobj_e
    have hreg : (broadcast_data st e).registry = st.registry := by
      show st.registry.filter _ = st.registry
      rw [List.filter_eq_self]
      intro a ha
      exact hok a ha
    have hbuf : ∀ id ∈ st.registry,
        (broadcast_data st e).buffers id
          = st.buffers id ++ [sseFrame e] := by
      intro id hid
      simp [broadcast_data, List.elem_eq_true_of_mem hid, hid, hok id hid]
    have ihH := ih (broadcast_data st e)
      (fun e' he' => hobj e' (List.mem_cons_of_mem _ he'))
      (fun id hid => hunb id (by rwa [hreg] at hid))
      (fun id hid => by
        have hid' : id ∈ st.registry := by rwa [hreg] at hid
        rw [hbuf id hid']
        have h2 := hcap id hid'
        simp only [List.length_cons] at h2
        simp only [List.length_append, List.length_singleton]
        omega)
    obtain ⟨ih1, ih2, ih3⟩ := ihH
    refine ⟨?_, ?_, ?_⟩
    · show (receive_data st (.parsed e)).1
          :: (postEvents (receive_data st (.parsed e)).2 rest).1 = _
      rw [hstep]
      simp only [List.length_cons, List.replicate_succ]
      exact congrArg _ ih1
    · show (postEvents (receive_data st (.parsed e)).2 rest).2.registry = _
      rw [hstep]
      simp only []
      rw [ih2, hreg]
    · intro id hid
      show (postEvents (receive_data st (.parsed e)).2 rest).2.buffers id = _
      rw [hstep]
      simp only []
      rw [ih3 id (by rwa [hreg]), hbuf id hid]
      simp [List.append_assoc]

/-- C1 witness: two healthy subscriptions, two object events — both requests
answered 200 and both subscriptions receive both frames in order. -/
theorem postEvents_delivery_witness :
    ((∀ e ∈ [JsonValue.obj [("speed", .num 42)], JsonValue.obj []],
        isObj e = true)
      ∧ (∀ id ∈ twoClientHub.registry, twoClientHub.broken id = false)
      ∧ (∀ id ∈ twoClientHub.registry,
          (twoClientHub.buffers id).length
            + [JsonValue.obj [("speed", .num 42)], JsonValue.obj []].length
          ≤ maxsize))
    ∧ ((postEvents twoClientHub
          [JsonValue.obj [("speed", .num 42)], JsonValue.obj []]).1
        = List.replicate
            [JsonValue.obj [("speed", .num 42)], JsonValue.obj []].length
            ⟨200, successBody⟩
      ∧ (postEvents twoClientHub
          [JsonValue.obj [("speed", .num 42)], JsonValue.obj []]).2.registry
        = twoClientHub.registry
      ∧ ∀ id ∈ twoClientHub.registry,
          (postEvents twoClientHub
            [JsonValue.obj [("speed", .num 42)], JsonValue.obj []]).2.buffers
              id
          = twoClientHub.buffers id
              ++ [JsonValue.obj [("speed", .num 42)],
                  JsonValue.obj []].map sseFrame) :=
  ⟨⟨by decide, by decide, by decide⟩,
   postEvents_delivery [JsonValue.obj [("speed", .num 42)], JsonValue.obj []]
     twoClientHub (by decide) (by decide) (by decide)⟩
